import Mathlib

/-!
Shallow embedding of the Certification Resolution Engine of this repository
(`src/manual_definition.py` together with the catalog rows inserted by
`src/setup_database.py`).

Modelling conventions:
* Python strings are Lean `String`s; character-level work is done on `List Char`.
  The regex character classes are modelled over their ASCII ranges
  (`\w` = letter/digit/underscore, `\d` = `0-9`, `\s` = the six ASCII
  whitespace characters), which covers every string occurring in the
  repository and in the concrete inputs used below.
* `datetime.now()` is modelled by an explicit parameter `now : Int`, a count
  of seconds since the epoch 1970-01-01 00:00:00 (the granularity of seconds
  rather than microseconds is immaterial to every statement below).
  `datetime.strptime(_, "%B %d, %Y")` yields the midnight instant
  `86400 * epochDay y m d`.  Python's `(a - b).days` is `Int.fdiv` of the
  difference of the two instants by 86400 (floor division, exactly
  `timedelta.days`).
* SQLite `REAL` points are modelled as `ℚ`; every value inserted by
  `setup_database.py` is a dyadic half, so float arithmetic in the source is
  exact and agrees with `ℚ`.
* The sqlite access inside `get_certification_points` is modelled by a
  parameter `db : Option (List (String × ℚ))`: `some rows` is the result of
  `SELECT cert_name, points FROM certifications_data ORDER BY points DESC`,
  and `none` is the exception path (missing or malformed database), which the
  source turns into the JSON object `{"error": "Database error: ..."}`.
-/

/-- ASCII model of the regex class `\w` (re module word character). -/
def isWordChar (c : Char) : Bool :=
  c.isAlpha || c.isDigit || c = '_'

/-- ASCII model of the regex class `\s`. -/
def isSpaceChar (c : Char) : Bool :=
  c = ' ' || c = '\t' || c = '\n' || c = '\r' || c = '\x0b' || c = '\x0c'

/-- ASCII lower-casing of one character, as `str.lower` acts on the
repository's strings. -/
def lowerChar (c : Char) : Char := c.toLower

/-- Lower-case a character list (`str.lower`). -/
def lowerL (cs : List Char) : List Char := cs.map lowerChar

/-- `pat` occurs at the very start of `hay`. -/
def startsWithL : List Char → List Char → Bool
  | [], _ => true
  | _ :: _, [] => false
  | p :: ps, h :: hs => p = h && startsWithL ps hs

/-- Python's `pat in hay` substring test. -/
def containsSub (pat : List Char) : List Char → Bool
  | [] => startsWithL pat []
  | c :: rest => startsWithL pat (c :: rest) || containsSub pat rest

/-- One step of Python's `str.replace`: leftmost, non-overlapping, driven by a
fuel argument so the definition is structural. -/
def replaceFrom (pat rep : List Char) : Nat → List Char → List Char
  | 0, cs => cs
  | _ + 1, [] => []
  | fuel + 1, c :: rest =>
    if startsWithL pat (c :: rest) then
      rep ++ replaceFrom pat rep fuel (rest.drop (pat.length - 1))
    else
      c :: replaceFrom pat rep fuel rest

/-- Python's `str.replace(pat, rep)` for a non-empty pattern. -/
def replaceAll (pat rep cs : List Char) : List Char :=
  replaceFrom pat rep cs.length cs

/-- Python's `str.split()` (split on whitespace runs, dropping empties). -/
def splitWsAux : List Char → List Char → List (List Char)
  | acc, [] => if acc.isEmpty then [] else [acc.reverse]
  | acc, c :: rest =>
    if isSpaceChar c then
      if acc.isEmpty then splitWsAux [] rest else acc.reverse :: splitWsAux [] rest
    else
      splitWsAux (c :: acc) rest

/-- Python's `str.split()`. -/
def splitWs (cs : List Char) : List (List Char) := splitWsAux [] cs

/-- Split a list into its maximal leading run satisfying `p` and the rest. -/
def spanL (p : Char → Bool) : List Char → List Char × List Char
  | [] => ([], [])
  | c :: rest =>
    if p c then
      let (run, rem) := spanL p rest
      (c :: run, rem)
    else
      ([], c :: rest)

/-- The value of a list of decimal digit characters. -/
def digitsToNat : List Char → Nat
  | [] => 0
  | c :: rest => digitsToNat rest + c.toNat.sub 48 * 10 ^ rest.length

/-- The captured pieces of the common capture group
`(\w+\s+\d+,\s+\d{4})`: the leading word, the day digits, and the four year
digits.  The whitespace runs and the comma carry no information for
`strptime("%B %d, %Y")`, which lets format whitespace match any whitespace
run, so they are not recorded. -/
structure DateToken where
  word : List Char
  dayDigits : List Char
  yearDigits : List Char
deriving DecidableEq

/-- Match the capture group `\w+\s+\d+,\s+\d{4}` anchored at the head of the
input.  Each quantifier is greedy; because `\w`, `\s` and `\d` classes cannot
overlap at the forced boundaries (and a shorter `\d+` run still leaves a digit
where `,` is required), the regex engine's backtracking never produces a
different match, so maximal runs are taken. -/
def matchCore (cs : List Char) : Option DateToken :=
  let (w, r1) := spanL isWordChar cs
  if w.isEmpty then none else
  let (s1, r2) := spanL isSpaceChar r1
  if s1.isEmpty then none else
  let (d1, r3) := spanL Char.isDigit r2
  if d1.isEmpty then none else
  match r3 with
  | ',' :: r4 =>
    let (s2, r5) := spanL isSpaceChar r4
    if s2.isEmpty then none else
    match r5 with
    | a :: b :: c :: e :: _ =>
      if a.isDigit && b.isDigit && c.isDigit && e.isDigit then
        some ⟨w, d1, [a, b, c, e]⟩
      else none
    | _ => none
  | _ => none

/-- Case-insensitive literal match at the head of the input (the patterns are
compiled with `re.IGNORECASE`); returns the rest of the input. -/
def matchLit : List Char → List Char → Option (List Char)
  | [], cs => some cs
  | _ :: _, [] => none
  | p :: ps, c :: cs => if lowerChar c = lowerChar p then matchLit ps cs else none

/-- Consume one `':'` if present (the regex piece `:?`; skipping a present
colon dead-ends, since `\s*` cannot consume it and `\w` rejects it). -/
def skipColon : List Char → List Char
  | ':' :: rest => rest
  | cs => cs

/-- Pattern 1, `expires?:?\s*(\w+\s+\d+,\s+\d{4})`, anchored at the head.
The only quantifier whose backtracking can matter is `s?`: when the
greedy branch (consuming the `s`) fails, the engine retries with the `s`
left for the capture group's `\w+`. -/
def patternOneAt (cs : List Char) : Option DateToken :=
  match matchLit ("expire".data) cs with
  | none => none
  | some r1 =>
    let after : List Char → Option DateToken := fun r =>
      matchCore (spanL isSpaceChar (skipColon r)).2
    match r1 with
    | c :: r =>
      if lowerChar c = 's' then
        match after r with
        | some t => some t
        | none => after r1
      else after r1
    | [] => after r1

/-- Pattern 2, `expir[y|ation]*\s*date:?\s*(\w+\s+\d+,\s+\d{4})`, anchored at
the head.  The character class `[y|ation]` is the literal set
`{y, |, a, t, i, o, n}`; its greedy run is deterministic because the class
contains neither whitespace nor `d`. -/
def patternTwoAt (cs : List Char) : Option DateToken :=
  match matchLit ("expir".data) cs with
  | none => none
  | some r1 =>
    let (_, r2) := spanL (fun c => ['y', '|', 'a', 't', 'i', 'o', 'n'].contains (lowerChar c)) r1
    let (_, r3) := spanL isSpaceChar r2
    match matchLit ("date".data) r3 with
    | none => none
    | some r4 => matchCore (spanL isSpaceChar (skipColon r4)).2

/-- `re.search`: try the anchored pattern at every position, left to right,
and return the leftmost match. -/
def searchPat (patAt : List Char → Option DateToken) : List Char → Option DateToken
  | [] => patAt []
  | c :: rest =>
    match patAt (c :: rest) with
    | some t => some t
    | none => searchPat patAt rest

/-- Month number of a full English month name, compared case-insensitively —
exactly what `strptime`'s `%B` accepts. -/
def monthFromName (w : List Char) : Option Nat :=
  let lw := lowerL w
  if lw = "january".data then some 1
  else if lw = "february".data then some 2
  else if lw = "march".data then some 3
  else if lw = "april".data then some 4
  else if lw = "may".data then some 5
  else if lw = "june".data then some 6
  else if lw = "july".data then some 7
  else if lw = "august".data then some 8
  else if lw = "september".data then some 9
  else if lw = "october".data then some 10
  else if lw = "november".data then some 11
  else if lw = "december".data then some 12
  else none

/-- Python's Gregorian leap-year test (`calendar.isleap` semantics used by
`datetime`). -/
def isLeapYear (y : Nat) : Bool :=
  y % 4 = 0 && (y % 100 ≠ 0 || y % 400 = 0)

/-- Days in a month, as validated by the `datetime` constructor. -/
def daysInMonth (m y : Nat) : Nat :=
  if m = 2 then (if isLeapYear y then 29 else 28)
  else if m = 4 || m = 6 || m = 9 || m = 11 then 30
  else 31

/-- Proleptic-Gregorian day count since 1970-01-01 (the civil-from-days
inverse used by `datetime` date arithmetic). -/
def epochDay (y m d : Nat) : Int :=
  let y1 : Int := if m ≤ 2 then (y : Int) - 1 else (y : Int)
  let era : Int := Int.fdiv y1 400
  let yoe : Int := y1 - era * 400
  let mp : Int := if 2 < m then (m : Int) - 3 else (m : Int) + 9
  let doy : Int := Int.fdiv (153 * mp + 2) 5 + (d : Int) - 1
  let doe : Int := yoe * 365 + Int.fdiv yoe 4 - Int.fdiv yoe 100 + doy
  era * 146097 + doe - 719468

/-- `datetime.strptime(token, "%B %d, %Y")` on a captured token, returning
`(year, month, day)` on success.  `%B` must consume the token's whole word;
`%d`'s regex accepts at most two digits with value 1–31; the `datetime`
constructor then requires `1 ≤ year` and a day that exists in the month. -/
def parseToken (t : DateToken) : Option (Nat × Nat × Nat) :=
  match monthFromName t.word with
  | none => none
  | some m =>
    let day := digitsToNat t.dayDigits
    let year := digitsToNat t.yearDigits
    if t.dayDigits.length ≤ 2 && 1 ≤ day && day ≤ 31 &&
        1 ≤ year && day ≤ daysInMonth m year then
      some (year, m, day)
    else none

/-- Search with one pattern, then `strptime` the leftmost captured token;
a parse failure of that token makes the whole pattern fail (`continue` in the
source moves on to the next pattern, not to the next match position). -/
def tryPattern (patAt : List Char → Option DateToken) (cs : List Char) :
    Option (Nat × Nat × Nat) :=
  match searchPat patAt cs with
  | none => none
  | some t => parseToken t

/-- The date-extraction loop of `check_certification_validity`: the three
patterns are tried in order and the first whose leftmost match parses wins. -/
def extractParsedDate (cs : List Char) : Option (Nat × Nat × Nat) :=
  match tryPattern patternOneAt cs with
  | some r => some r
  | none =>
    match tryPattern patternTwoAt cs with
    | some r => some r
    | none => tryPattern matchCore cs

/-- The JSON object returned by `check_certification_validity`.
`days_remaining = none` models the string `"N/A"`; `expiry_date = none`
models the absence of the `expiry_date` key (present only when a date
parsed, where the source emits it as `"%Y-%m-%d"`). -/
structure ValidityVerdict where
  is_valid : Bool
  message : String
  days_remaining : Option Int
  expiry_date : Option (Nat × Nat × Nat)
deriving DecidableEq

/-- The short-circuit test of `check_certification_validity`:
`"no expiration" in s.lower() or "does not expire" in s.lower()`. -/
def hasNoExpPhrase (s : String) : Bool :=
  containsSub ("no expiration".data) (lowerL s.data) ||
  containsSub ("does not expire".data) (lowerL s.data)

/-- `check_certification_validity(expiry_date_str)` with `datetime.now()`
made explicit as `now` (seconds since the epoch).  A parsed expiry date is
the midnight instant `86400 * epochDay y m d`; `is_valid` is the source's
strict `current_date < expiry_date`, and `days_remaining` is
`(expiry_date - current_date).days` when valid, else `0`. -/
def check_certification_validity (s : String) (now : Int) : ValidityVerdict :=
  if hasNoExpPhrase s then
    ⟨true, "Valid - Does not expire", none, none⟩
  else
    match extractParsedDate s.data with
    | some (y, m, d) =>
      let e : Int := 86400 * epochDay y m d
      let valid : Bool := now < e
      let dr : Int := Int.fdiv (e - now) 86400
      ⟨valid, if valid then "Valid" else "Expired",
        some (if valid then dr else 0), some (y, m, d)⟩
    | none => ⟨false, "Expired - Could not parse date", some 0, none⟩

/-- The JSON object returned by `get_certification_points`: either the
matched row (`category`, `points`, echoed `cert_name`) or an `error` object.
A database exception yields `error "Database error"` and an empty table
yields `error "No categories found in database"` — two distinguishable
failures, both distinct from every `ok`. -/
inductive PointsData where
  | ok (category : String) (points : ℚ) (cert_name : String)
  | error (msg : String)
deriving DecidableEq

/-- The keyword list the source builds from one category name: lower-case it,
replace `" or "` and `" and "` by a space, split on whitespace, keep words
longer than two characters. -/
def keywordsOf (category : String) : List (List Char) :=
  (splitWs (replaceAll (" and ".data) (" ".data)
      (replaceAll (" or ".data) (" ".data) (lowerL category.data)))).filter
    (fun w => 2 < w.length)

/-- The matching loop of `get_certification_points`: the first category (in
the points-descending order delivered by the query) one of whose keywords is
a substring of the lower-cased certification name. -/
def firstKeywordMatch (cats : List (String × ℚ)) (q : List Char) :
    Option (String × ℚ) :=
  match cats with
  | [] => none
  | (n, p) :: rest =>
    if (keywordsOf n).any (fun k => containsSub k q) then some (n, p)
    else firstKeywordMatch rest q

/-- `get_certification_points(cert_name)`.  `db = some cats` holds the rows of
`SELECT cert_name, points FROM certifications_data ORDER BY points DESC`;
`db = none` is the exception path (missing or malformed database).  With no
keyword match the source returns `categories[-1]`, the last — lowest-points —
row. -/
def get_certification_points (db : Option (List (String × ℚ)))
    (cert_name : String) : PointsData :=
  match db with
  | none => .error "Database error"
  | some cats =>
    match firstKeywordMatch cats (lowerL cert_name.data) with
    | some (n, p) => .ok n p cert_name
    | none =>
      match cats.getLast? with
      | some (n, p) => .ok n p cert_name
      | none => .error "No categories found in database"

/-- The rows `setup_certifications_database` inserts, in insertion order. -/
def certificationsRows : List (String × ℚ) :=
  [("HashiCorp Certified: Terraform Associate", 5),
   ("AWS Certified AI Practitioner", 5 / 2),
   ("AWS Certified Solutions Architect - Professional", 10),
   ("AWS Certified Solutions Architect - Associate", 5),
   ("AWS Certified Developer - Associate", 5),
   ("AWS Certified SysOps Administrator - Associate", 5),
   ("AWS Certified DevOps Engineer - Professional", 10),
   ("AWS Solution Architect Professional", 10),
   ("Google Cloud Professional Cloud Architect", 8),
   ("Microsoft Certified: Azure Fundamentals", 5),
   ("Microsoft Certified: Azure Solutions Architect Expert", 8),
   ("Certified Kubernetes Administrator (CKA)", 7),
   ("CompTIA Security+", 9 / 2),
   ("Certified Information Systems Security Professional (CISSP)", 9)]

/-- The same rows as delivered by `ORDER BY points DESC` (ties kept in
insertion order, matching SQLite's stable sorter on this table). -/
def categoriesByPointsDesc : List (String × ℚ) :=
  [("AWS Certified Solutions Architect - Professional", 10),
   ("AWS Certified DevOps Engineer - Professional", 10),
   ("AWS Solution Architect Professional", 10),
   ("Certified Information Systems Security Professional (CISSP)", 9),
   ("Google Cloud Professional Cloud Architect", 8),
   ("Microsoft Certified: Azure Solutions Architect Expert", 8),
   ("Certified Kubernetes Administrator (CKA)", 7),
   ("HashiCorp Certified: Terraform Associate", 5),
   ("AWS Certified Solutions Architect - Associate", 5),
   ("AWS Certified Developer - Associate", 5),
   ("AWS Certified SysOps Administrator - Associate", 5),
   ("Microsoft Certified: Azure Fundamentals", 5),
   ("CompTIA Security+", 9 / 2),
   ("AWS Certified AI Practitioner", 5 / 2)]

/-- One entry of the global `credly_data['badges']`, restricted to the two
fields the aggregator reads. -/
structure Badge where
  title : String
  expiry_date : String
deriving DecidableEq

/-- One line of the aggregator's per-item breakdown,
`f"{cert_name}: {points} points ({'Valid' if is_valid else 'Expired'})"`,
kept structured. -/
structure ItemDetail where
  name : String
  points : ℚ
  label : String
deriving DecidableEq

/-- The aggregator's output when badges are loaded: the running total and the
breakdown lines in input order. -/
structure AggregateResult where
  total : ℚ
  details : List ItemDetail
deriving DecidableEq

/-- `calculate_certificate_points` either reports that no certificates are
loaded or produces an aggregate. -/
inductive AggOutcome where
  | noCerts
  | result (r : AggregateResult)
deriving DecidableEq

/-- The per-badge contribution,
`points_data.get('points', 0) if validity_data.get('is_valid', False) else 0`:
an error object from the points lookup contributes its `.get` default `0`. -/
def itemPoints (db : Option (List (String × ℚ))) (now : Int) (b : Badge) : ℚ :=
  if (check_certification_validity b.expiry_date now).is_valid then
    match get_certification_points db b.title with
    | .ok _ p _ => p
    | .error _ => 0
  else 0

/-- The breakdown line built for one badge. -/
def mkDetail (db : Option (List (String × ℚ))) (now : Int) (b : Badge) :
    ItemDetail :=
  ⟨b.title, itemPoints db now b,
    if (check_certification_validity b.expiry_date now).is_valid
    then "Valid" else "Expired"⟩

/-- The aggregation loop: accumulate the total and the breakdown, in badge
order. -/
def aggregateItems (db : Option (List (String × ℚ))) (now : Int) :
    List Badge → ℚ × List ItemDetail
  | [] => (0, [])
  | b :: rest =>
    (itemPoints db now b + (aggregateItems db now rest).1,
      mkDetail db now b :: (aggregateItems db now rest).2)

/-- `calculate_certificate_points()` with the global state made explicit:
`badges` is `credly_data['badges']` and `db`/`now` are as above.  An empty
badge list is the `count == 0` early return. -/
def calculate_certificate_points (db : Option (List (String × ℚ)))
    (badges : List Badge) (now : Int) : AggOutcome :=
  if badges.isEmpty then .noCerts
  else
    let (t, ds) := aggregateItems db now badges
    .result ⟨t, ds⟩

/-- The aggregation loop in closed form: the running total is the sum of the
per-badge contributions and the breakdown is the per-badge detail line, in
input order. -/
theorem aggregateItems_eq (db : Option (List (String × ℚ))) (now : Int)
    (l : List Badge) :
    aggregateItems db now l =
      ((l.map (itemPoints db now)).sum, l.map (mkDetail db now)) := by
  induction l with
  | nil => rfl
  | cons b rest ih => simp [aggregateItems, ih]

/-- The points a breakdown line shows are the points the badge contributed. -/
theorem mkDetail_points (db : Option (List (String × ℚ))) (now : Int)
    (b : Badge) : (mkDetail db now b).points = itemPoints db now b := rfl

/-- C1: for every aggregation call, any item whose validity verdict has
`is_valid = false` contributes exactly 0 points — its breakdown line shows 0
regardless of the point value the catalog lookup resolved for it. -/
theorem claim_C1_expired_items_contribute_zero
    (db : Option (List (String × ℚ))) (badges : List Badge) (now : Int)
    (r : AggregateResult) (i : Nat)
    (hr : calculate_certificate_points db badges now = .result r)
    (hi : i < badges.length)
    (hv : (check_certification_validity badges[i].expiry_date now).is_valid
        = false) :
    ∃ hd : i < r.details.length, r.details[i].points = 0 := by
  unfold calculate_certificate_points at hr
  split at hr
  · exact absurd hr (by simp)
  · rw [aggregateItems_eq] at hr
    obtain rfl : r = ⟨(badges.map (itemPoints db now)).sum,
        badges.map (mkDetail db now)⟩ := by
      cases hr; rfl
    refine ⟨by simpa using hi, ?_⟩
    simp only [List.getElem_map, mkDetail_points]
    unfold itemPoints
    rw [hv]
    simp

/-- C8: aggregation is deterministic — two calls with identical badge lists,
identical catalog contents and the same reference instant produce identical
totals and identical per-item breakdowns. -/
theorem claim_C8_aggregation_deterministic
    (db₁ db₂ : Option (List (String × ℚ))) (badges₁ badges₂ : List Badge)
    (now₁ now₂ : Int)
    (h₁ : db₁ = db₂) (h₂ : badges₁ = badges₂) (h₃ : now₁ = now₂) :
    calculate_certificate_points db₁ badges₁ now₁ =
      calculate_certificate_points db₂ badges₂ now₂ := by
  rw [h₁, h₂, h₃]

/-- C9: the reported total always equals the sum of the per-item point
contributions listed in the breakdown. -/
theorem claim_C9_total_is_sum_of_breakdown
    (db : Option (List (String × ℚ))) (badges : List Badge) (now : Int)
    (r : AggregateResult)
    (hr : calculate_certificate_points db badges now = .result r) :
    r.total = (r.details.map ItemDetail.points).sum := by
  unfold calculate_certificate_points at hr
  split at hr
  · exact absurd hr (by simp)
  · rw [aggregateItems_eq] at hr
    obtain rfl : r = ⟨(badges.map (itemPoints db now)).sum,
        badges.map (mkDetail db now)⟩ := by
      cases hr; rfl
    have hmap : ItemDetail.points ∘ mkDetail db now = itemPoints db now :=
      funext fun b => rfl
    simp [List.map_map, hmap]

/-- C10: the validity evaluator is total — on every input string it returns
one of four structured verdicts, each of which carries an `is_valid` field. -/
theorem claim_C10_validity_evaluator_total (s : String) (now : Int) :
    check_certification_validity s now =
        ⟨true, "Valid - Does not expire", none, none⟩ ∨
      (∃ ymd dr, check_certification_validity s now =
        ⟨true, "Valid", some dr, some ymd⟩) ∨
      (∃ ymd, check_certification_validity s now =
        ⟨false, "Expired", some 0, some ymd⟩) ∨
      check_certification_validity s now =
        ⟨false, "Expired - Could not parse date", some 0, none⟩ := by
  unfold check_certification_validity
  split
  · exact Or.inl rfl
  · split
    next y m d heq =>
      by_cases hv : now < 86400 * epochDay y m d
      · exact Or.inr (Or.inl ⟨(y, m, d),
          Int.fdiv (86400 * epochDay y m d - now) 86400, by simp [hv]⟩)
      · exact Or.inr (Or.inr (Or.inl ⟨(y, m, d), by simp [hv]⟩))
    next heq => exact Or.inr (Or.inr (Or.inr rfl))

/-- Witness for C1: a badge resolving to 10 catalog points but expired on
2023-01-15, aggregated at 2025-01-01 00:00:00, shows 0 points in its line. -/
theorem claim_C1_expired_items_contribute_zero_witness :
    ∃ hd : 0 < (AggregateResult.mk 0
        [⟨"AWS Certified Solutions Architect - Professional", 0, "Expired"⟩]).details.length,
      (AggregateResult.mk 0
        [⟨"AWS Certified Solutions Architect - Professional", 0, "Expired"⟩]).details[0].points = 0 :=
  claim_C1_expired_items_contribute_zero (some categoriesByPointsDesc)
    [⟨"AWS Certified Solutions Architect - Professional", "Expires: January 15, 2023"⟩]
    (86400 * epochDay 2025 1 1)
    ⟨0, [⟨"AWS Certified Solutions Architect - Professional", 0, "Expired"⟩]⟩ 0
    (by
      have hval : check_certification_validity "Expires: January 15, 2023"
          (86400 * epochDay 2025 1 1) = ⟨false, "Expired", some 0, some (2023, 1, 15)⟩ := by
        decide
      simp [calculate_certificate_points, aggregateItems, itemPoints, mkDetail, hval])
    (by decide) (by decide)

/-- Witness for C8 at a concrete catalog, badge list and instant. -/
theorem claim_C8_aggregation_deterministic_witness :
    calculate_certificate_points (some categoriesByPointsDesc)
        [⟨"AWS Certified Developer - Associate", "No Expiration Date"⟩] 0 =
      calculate_certificate_points (some categoriesByPointsDesc)
        [⟨"AWS Certified Developer - Associate", "No Expiration Date"⟩] 0 :=
  claim_C8_aggregation_deterministic (some categoriesByPointsDesc)
    (some categoriesByPointsDesc)
    [⟨"AWS Certified Developer - Associate", "No Expiration Date"⟩]
    [⟨"AWS Certified Developer - Associate", "No Expiration Date"⟩] 0 0
    rfl rfl rfl

/-- Witness for C9 at a one-badge aggregation whose lookup errors out. -/
theorem claim_C9_total_is_sum_of_breakdown_witness :
    (AggregateResult.mk 0 [⟨"A", 0, "Valid"⟩]).total =
      ((AggregateResult.mk 0 [⟨"A", 0, "Valid"⟩]).details.map ItemDetail.points).sum :=
  claim_C9_total_is_sum_of_breakdown none [⟨"A", "No Expiration Date"⟩] 0
    ⟨0, [⟨"A", 0, "Valid"⟩]⟩
    (by
      have hval : check_certification_validity "No Expiration Date" 0 =
          ⟨true, "Valid - Does not expire", none, none⟩ := by decide
      simp [calculate_certificate_points, aggregateItems, itemPoints, mkDetail,
        hval, get_certification_points])

/-- C4 counterexample: the evaluator does NOT return Valid for an empty
expiry text nor for the phrases "none", "not specified" or "no expiry" — all
four evaluate with `is_valid = false` (the claim asserts Valid for each). -/
theorem claim_C4_counterexample :
    (check_certification_validity "" 0).is_valid = false ∧
    (check_certification_validity "none" 0).is_valid = false ∧
    (check_certification_validity "not specified" 0).is_valid = false ∧
    (check_certification_validity "no expiry" 0).is_valid = false := by
  decide

/-- C4 (amended): only the two phrases the source actually tests —
"no expiration" and "does not expire", as case-insensitive substrings —
short-circuit to the Valid verdict with no parsed date and `days_remaining`
reported as "N/A". -/
theorem claim_C4_no_expiration_phrases (s : String) (now : Int)
    (h : hasNoExpPhrase s = true) :
    check_certification_validity s now =
      ⟨true, "Valid - Does not expire", none, none⟩ := by
  simp [check_certification_validity, h]

/-- Witness for the amended C4 at the text the scraper itself produces. -/
theorem claim_C4_no_expiration_phrases_witness :
    hasNoExpPhrase "No Expiration Date" = true ∧
    check_certification_validity "No Expiration Date" 0 =
      ⟨true, "Valid - Does not expire", none, none⟩ :=
  ⟨by decide, claim_C4_no_expiration_phrases "No Expiration Date" 0 (by decide)⟩

/-- C2 counterexample: an unparseable expiry text is NOT treated as valid for
aggregation — it yields `is_valid = false` and the item contributes 0 even
though the catalog lookup resolves 10 points for its name. -/
theorem claim_C2_counterexample :
    (check_certification_validity "Expires: unknown" 0).is_valid = false ∧
    (check_certification_validity "Expires: unknown" 0).message =
      "Expired - Could not parse date" ∧
    get_certification_points (some categoriesByPointsDesc)
        "AWS Certified Developer - Associate" =
      .ok "AWS Certified Solutions Architect - Professional" 10
        "AWS Certified Developer - Associate" ∧
    itemPoints (some categoriesByPointsDesc) 0
      ⟨"AWS Certified Developer - Associate", "Expires: unknown"⟩ = 0 := by
  refine ⟨by decide, by decide, rfl, ?_⟩
  have hval : (check_certification_validity "Expires: unknown" 0).is_valid
      = false := by decide
  simp [itemPoints, hval]

/-- C2 (amended): when no date token is extractable (or none parses), the
evaluator returns `is_valid = false` with message
"Expired - Could not parse date" and `days_remaining = 0`, and such an item
is treated as expired by aggregation: its contribution is 0, not its
resolved points. -/
theorem claim_C2_unparseable_treated_as_expired (s : String) (now : Int)
    (db : Option (List (String × ℚ))) (title : String)
    (h1 : hasNoExpPhrase s = false)
    (h2 : extractParsedDate s.data = none) :
    check_certification_validity s now =
      ⟨false, "Expired - Could not parse date", some 0, none⟩ ∧
    itemPoints db now ⟨title, s⟩ = 0 := by
  have hc : check_certification_validity s now =
      ⟨false, "Expired - Could not parse date", some 0, none⟩ := by
    simp [check_certification_validity, h1, h2]
  exact ⟨hc, by simp [itemPoints, hc]⟩

/-- Witness for the amended C2 at a concrete unparseable expiry text. -/
theorem claim_C2_unparseable_treated_as_expired_witness :
    check_certification_validity "Expires: unknown" 17 =
      ⟨false, "Expired - Could not parse date", some 0, none⟩ ∧
    itemPoints (some categoriesByPointsDesc) 17 ⟨"X", "Expires: unknown"⟩ = 0 :=
  claim_C2_unparseable_treated_as_expired "Expires: unknown" 17
    (some categoriesByPointsDesc) "X" (by decide) (by decide)

/-- A category returned by the matching loop is a row of the catalog. -/
theorem firstKeywordMatch_mem (cats : List (String × ℚ)) (q : List Char)
    (n : String) (p : ℚ) (h : firstKeywordMatch cats q = some (n, p)) :
    (n, p) ∈ cats := by
  induction cats with
  | nil => simp [firstKeywordMatch] at h
  | cons c rest ih =>
    unfold firstKeywordMatch at h
    split at h
    · cases h
      exact List.mem_cons_self _ _
    · exact List.mem_cons_of_mem _ (ih h)

/-- With the database unavailable, every badge contributes 0 — whether its
verdict is valid (the error object has no `points` key, so `.get` yields 0)
or expired. -/
theorem itemPoints_none (now : Int) (b : Badge) : itemPoints none now b = 0 := by
  unfold itemPoints
  split <;> rfl

/-- C5 counterexample: the query "AWS Certified Developer - Associate" is
letter-for-letter a catalog name stored with 5.0 points, yet resolution
returns 10.0 — the points of the first higher-scoring row whose keyword
"aws" occurs in the query. -/
theorem claim_C5_counterexample :
    ("AWS Certified Developer - Associate", (5 : ℚ)) ∈ categoriesByPointsDesc ∧
    get_certification_points (some categoriesByPointsDesc)
        "AWS Certified Developer - Associate" =
      .ok "AWS Certified Solutions Architect - Professional" 10
        "AWS Certified Developer - Associate" ∧
    (10 : ℚ) ≠ 5 := by
  refine ⟨by decide, rfl, by norm_num⟩

/-- C5 (amended): a query equal (case-insensitively) to some catalog name
resolves to the stored point value of SOME catalog row — the first row, in
points-descending order, with a keyword contained in the query, which need
not be the equal-named row — and never to a synthesized estimate. -/
theorem claim_C5_equal_name_resolves_within_catalog
    (cats : List (String × ℚ)) (q : String)
    (h : ∃ e ∈ cats, lowerL e.1.data = lowerL q.data) :
    ∃ n p, (n, p) ∈ cats ∧
      get_certification_points (some cats) q = .ok n p q := by
  cases hm : firstKeywordMatch cats (lowerL q.data) with
  | some np =>
    obtain ⟨n, p⟩ := np
    exact ⟨n, p, firstKeywordMatch_mem cats _ n p hm,
      by simp [get_certification_points, hm]⟩
  | none =>
    have hne : cats ≠ [] := by
      obtain ⟨e, he, _⟩ := h
      exact List.ne_nil_of_mem he
    obtain ⟨⟨n, p⟩, hx⟩ :=
      Option.isSome_iff_exists.mp (List.getLast?_isSome.mpr hne)
    exact ⟨n, p, List.mem_of_getLast?_eq_some hx,
      by simp [get_certification_points, hm, hx]⟩

/-- Witness for the amended C5 at the repository's catalog. -/
theorem claim_C5_equal_name_resolves_within_catalog_witness :
    ∃ n p, (n, p) ∈ categoriesByPointsDesc ∧
      get_certification_points (some categoriesByPointsDesc)
        "AWS Certified Developer - Associate" =
        .ok n p "AWS Certified Developer - Associate" :=
  claim_C5_equal_name_resolves_within_catalog categoriesByPointsDesc
    "AWS Certified Developer - Associate"
    ⟨("AWS Certified Developer - Associate", 5), by decide, by decide⟩

/-- C6 counterexample: with the catalog source unavailable, aggregation does
NOT halt and does not surface the failure — both badges are processed and
the lookup failure is silently converted into 0-point contributions. -/
theorem claim_C6_counterexample :
    calculate_certificate_points none
      [⟨"A", "No Expiration Date"⟩, ⟨"B", "No Expiration Date"⟩] 0 =
      .result ⟨0, [⟨"A", 0, "Valid"⟩, ⟨"B", 0, "Valid"⟩]⟩ := by
  have hval : check_certification_validity "No Expiration Date" 0 =
      ⟨true, "Valid - Does not expire", none, none⟩ := by decide
  simp [calculate_certificate_points, aggregateItems, itemPoints, mkDetail,
    hval, get_certification_points]

/-- C6 (amended): the points lookup itself surfaces a distinguishable error
object on catalog failure (never a keyword estimate), but the aggregator
converts that failure into a 0-point contribution for every item and
continues through the whole badge list instead of halting. -/
theorem claim_C6_catalog_failure_zeroed_not_halting
    (q : String) (badges : List Badge) (now : Int) (h : badges ≠ []) :
    get_certification_points none q = .error "Database error" ∧
    ∃ r, calculate_certificate_points none badges now = .result r ∧
      r.total = 0 ∧ r.details.length = badges.length ∧
      ∀ d ∈ r.details, d.points = 0 := by
  refine ⟨rfl, ⟨(badges.map (itemPoints none now)).sum,
    badges.map (mkDetail none now)⟩, ?_, ?_, by simp, ?_⟩
  · unfold calculate_certificate_points
    rw [aggregateItems_eq]
    simp [h]
  · exact List.sum_eq_zero fun x hx => by
      obtain ⟨b, _, rfl⟩ := List.mem_map.mp hx
      exact itemPoints_none now b
  · intro d hd
    obtain ⟨b, _, rfl⟩ := List.mem_map.mp hd
    rw [mkDetail_points, itemPoints_none]

/-- Witness for the amended C6: two badges, one valid and one expired, with
the database unavailable. -/
theorem claim_C6_catalog_failure_zeroed_not_halting_witness :
    get_certification_points none "X" = .error "Database error" ∧
    ∃ r, calculate_certificate_points none
        [⟨"A", "No Expiration Date"⟩, ⟨"B", "Expires: January 15, 2023"⟩] 5 =
        .result r ∧
      r.total = 0 ∧ r.details.length =
        ([⟨"A", "No Expiration Date"⟩,
          ⟨"B", "Expires: January 15, 2023"⟩] : List Badge).length ∧
      ∀ d ∈ r.details, d.points = 0 :=
  claim_C6_catalog_failure_zeroed_not_halting "X"
    [⟨"A", "No Expiration Date"⟩, ⟨"B", "Expires: January 15, 2023"⟩] 5
    (by simp)

/-- C7 counterexample: "Completely Unknown Cert XYZ" matches no keyword of
any catalog row, and the fallback returns the LAST (lowest-points) row —
"AWS Certified AI Practitioner" at 2.5 points — not a 5-point default. -/
theorem claim_C7_counterexample :
    firstKeywordMatch categoriesByPointsDesc
      (lowerL ("Completely Unknown Cert XYZ".data)) = none ∧
    get_certification_points (some categoriesByPointsDesc)
        "Completely Unknown Cert XYZ" =
      .ok "AWS Certified AI Practitioner" (5 / 2)
        "Completely Unknown Cert XYZ" ∧
    (5 / 2 : ℚ) ≠ 5 := by
  refine ⟨by decide, rfl, by norm_num⟩

/-- C7 (amended): a query with no keyword match falls back to the last row
of the points-descending catalog (its lowest-points entry), whatever that
row's value is; there is no tier-token estimator. -/
theorem claim_C7_fallback_is_last_catalog_row
    (cats : List (String × ℚ)) (q n : String) (p : ℚ)
    (h1 : firstKeywordMatch cats (lowerL q.data) = none)
    (h2 : cats.getLast? = some (n, p)) :
    get_certification_points (some cats) q = .ok n p q := by
  simp [get_certification_points, h1, h2]

/-- Witness for the amended C7 at the repository's catalog. -/
theorem claim_C7_fallback_is_last_catalog_row_witness :
    get_certification_points (some categoriesByPointsDesc)
        "Completely Unknown Cert XYZ" =
      .ok "AWS Certified AI Practitioner" (5 / 2)
        "Completely Unknown Cert XYZ" :=
  claim_C7_fallback_is_last_catalog_row categoriesByPointsDesc
    "Completely Unknown Cert XYZ" "AWS Certified AI Practitioner" (5 / 2)
    (by decide) rfl

/-- C3 counterexample: with the expiry date equal to today (the claim's
boundary case, asserted Valid), the verdict at 2025-01-15 12:00:00 is
Expired; and at 2025-01-01 12:00:00 an expiry of 2025-12-31 reports 363
remaining days, not the calendar-day difference 364. -/
theorem claim_C3_counterexample :
    (check_certification_validity "Expires: January 15, 2025"
      (86400 * epochDay 2025 1 15 + 43200)).is_valid = false ∧
    (check_certification_validity "Expires: December 31, 2025"
      (86400 * epochDay 2025 1 1 + 43200)).days_remaining = some 363 ∧
    epochDay 2025 12 31 - epochDay 2025 1 1 = 364 := by
  refine ⟨by decide, by decide, by decide⟩

/-- C3 (amended): the comparison is at full datetime granularity with the
parsed date at midnight, so with `now = 86400*q + t` (`0 ≤ t < 86400`) the
verdict is Valid exactly when the parsed date is STRICTLY after today
(`q < epochDay y m d`); a parsed date equal to today is Expired.  When
valid, `days_remaining` is the floor of the difference in days: one less
than the calendar-day difference whenever `now` is past midnight; when
expired it is 0. -/
theorem claim_C3_datetime_granularity_comparison (s : String) (q t : Int)
    (y m d : Nat)
    (h0 : hasNoExpPhrase s = false)
    (h1 : extractParsedDate s.data = some (y, m, d))
    (h2 : 0 ≤ t) (h3 : t < 86400) :
    check_certification_validity s (86400 * q + t) =
      ⟨decide (q < epochDay y m d),
        if q < epochDay y m d then "Valid" else "Expired",
        some (if q < epochDay y m d then
          epochDay y m d - q - (if 0 < t then 1 else 0) else 0),
        some (y, m, d)⟩ := by
  have hval : (86400 * q + t < 86400 * epochDay y m d) ↔ (q < epochDay y m d) := by
    constructor <;> intro hlt <;> nlinarith [hlt]
  simp only [check_certification_validity, h0, h1, Bool.false_eq_true,
    if_false]
  by_cases hq : q < epochDay y m d
  · have hnow : 86400 * q + t < 86400 * epochDay y m d := hval.mpr hq
    have hfd : Int.fdiv (86400 * epochDay y m d - (86400 * q + t)) 86400 =
        epochDay y m d - q - (if 0 < t then 1 else 0) := by
      rw [Int.fdiv_eq_ediv _ (by norm_num)]
      by_cases ht : 0 < t
      · simp only [ht, if_true]
        omega
      · simp only [ht, if_false]
        omega
    simp [hnow, hq, hfd]
  · have hnow : ¬(86400 * q + t < 86400 * epochDay y m d) := fun hlt =>
      hq (hval.mp hlt)
    simp [hnow, hq]

/-- Witness for the amended C3: at 2025-01-01 12:00:00, "Expires: December
31, 2025" is Valid with 363 remaining days (one under the calendar-day
difference). -/
theorem claim_C3_datetime_granularity_comparison_witness :
    check_certification_validity "Expires: December 31, 2025"
        (86400 * epochDay 2025 1 1 + 43200) =
      ⟨true, "Valid", some 363, some (2025, 12, 31)⟩ := by
  rw [claim_C3_datetime_granularity_comparison "Expires: December 31, 2025"
    (epochDay 2025 1 1) 43200 2025 12 31 (by decide) (by decide)
    (by decide) (by decide)]
  decide
